import Mathlib

/-!
Verification development for the sticky-session reverse proxy worker
(`src/index.ts`): cookie codec, shard selector, readiness prober and
proxy dispatcher, shallowly embedded in Lean.

Modelling conventions:
* JS strings are Lean `String`s / `List Char`; JS string indices coincide
  with character positions for the inputs handled here.
* JS numbers are modelled exactly (`JSNum` below wraps `ℚ` plus the
  special values); float rounding/overflow of in-range literals is not
  modelled, every operation the worker performs on its numbers is exact.
* Fallible JS code (exceptions) is modelled with `Option` / `Except`,
  where the carried `String` is the `String(e)` rendering of the thrown
  value.
-/

/-! ## JS character / string helpers -/

/-- Characters matched by the JavaScript regexp class `\s`. -/
def jsWhitespace (c : Char) : Bool :=
  c == ' ' || c == '\t' || c == '\n' || c == '\r' ||
  c == Char.ofNat 0x0B || c == Char.ofNat 0x0C ||
  c == Char.ofNat 0xA0 || c == Char.ofNat 0x1680 ||
  (Char.ofNat 0x2000 ≤ c && c ≤ Char.ofNat 0x200A) ||
  c == Char.ofNat 0x2028 || c == Char.ofNat 0x2029 ||
  c == Char.ofNat 0x202F || c == Char.ofNat 0x205F ||
  c == Char.ofNat 0x3000 || c == Char.ofNat 0xFEFF

/-- `header.split(/;\s*/)`: split at every `';'` and greedily drop the
whitespace following that `';'`.  The `Bool` flag records whether we are
currently inside the whitespace run following a separator. -/
def splitSemiAux : List Char → Bool → List (List Char)
  | [], _ => [[]]
  | c :: rest, skipping =>
    if skipping && jsWhitespace c then splitSemiAux rest true
    else if c == ';' then [] :: splitSemiAux rest true
    else
      match splitSemiAux rest false with
      | [] => [[c]]
      | seg :: segs => (c :: seg) :: segs

def jsSplitSemi (s : List Char) : List (List Char) :=
  splitSemiAux s false

/-- `kv.indexOf("=")`: index of the first `'='`, `-1` when absent. -/
def jsIndexOfEq : List Char → Int
  | [] => -1
  | c :: rest =>
    if c == '=' then 0
    else
      let r := jsIndexOfEq rest
      if r < 0 then -1 else r + 1

/-- Value of a hexadecimal digit character. -/
def hexVal (c : Char) : Option Nat :=
  if '0' ≤ c && c ≤ '9' then some (c.toNat - 48)
  else if 'A' ≤ c && c ≤ 'F' then some (c.toNat - 55)
  else if 'a' ≤ c && c ≤ 'f' then some (c.toNat - 87)
  else none

/-- First pass of `decodeURIComponent`: turn every `%XY` escape into the
byte it denotes (`Sum.inr`), leave all other characters alone
(`Sum.inl`).  `none` models the `URIError` thrown on a `%` that is not
followed by two hexadecimal digits. -/
def pctItems : List Char → Option (List (Sum Char Nat))
  | [] => some []
  | '%' :: a :: b :: rest =>
    match hexVal a, hexVal b with
    | some x, some y => (pctItems rest).map (fun l => Sum.inr (16 * x + y) :: l)
    | _, _ => none
  | '%' :: _ => none
  | c :: rest => (pctItems rest).map (fun l => Sum.inl c :: l)

/-- Is `b` a UTF-8 continuation byte? -/
def isCont (b : Nat) : Bool := 0x80 ≤ b && b ≤ 0xBF

/-- Admissible range of the second byte of a multi-byte UTF-8 sequence
with leading byte `b` (per the table used by `decodeURIComponent`,
which rejects overlong encodings and surrogates). -/
def sndByteOk (b b1 : Nat) : Bool :=
  if b == 0xE0 then 0xA0 ≤ b1 && b1 ≤ 0xBF
  else if b == 0xED then 0x80 ≤ b1 && b1 ≤ 0x9F
  else if b == 0xF0 then 0x90 ≤ b1 && b1 ≤ 0xBF
  else if b == 0xF4 then 0x80 ≤ b1 && b1 ≤ 0x8F
  else isCont b1

/-- Second pass of `decodeURIComponent`: decode maximal runs of escaped
bytes as UTF-8.  Continuation bytes must themselves come from escapes;
any malformed sequence is a `URIError` (`none`). -/
def decodeItems : List (Sum Char Nat) → Option (List Char)
  | [] => some []
  | Sum.inl c :: rest => (decodeItems rest).map (fun l => c :: l)
  | Sum.inr b :: rest =>
    if b < 0x80 then (decodeItems rest).map (fun l => Char.ofNat b :: l)
    else if 0xC2 ≤ b && b ≤ 0xDF then
      match rest with
      | Sum.inr b1 :: rest1 =>
        if isCont b1 then
          (decodeItems rest1).map (fun l => Char.ofNat ((b - 0xC0) * 64 + (b1 - 0x80)) :: l)
        else none
      | _ => none
    else if 0xE0 ≤ b && b ≤ 0xEF then
      match rest with
      | Sum.inr b1 :: Sum.inr b2 :: rest2 =>
        if sndByteOk b b1 && isCont b2 then
          (decodeItems rest2).map
            (fun l => Char.ofNat ((b - 0xE0) * 4096 + (b1 - 0x80) * 64 + (b2 - 0x80)) :: l)
        else none
      | _ => none
    else if 0xF0 ≤ b && b ≤ 0xF4 then
      match rest with
      | Sum.inr b1 :: Sum.inr b2 :: Sum.inr b3 :: rest3 =>
        if sndByteOk b b1 && isCont b2 && isCont b3 then
          (decodeItems rest3).map
            (fun l => Char.ofNat ((b - 0xF0) * 262144 + (b1 - 0x80) * 4096 +
                                  (b2 - 0x80) * 64 + (b3 - 0x80)) :: l)
        else none
      | _ => none
    else none

/-- `decodeURIComponent`, on character lists; `none` models `URIError`. -/
def decodeURIChars (s : List Char) : Option (List Char) :=
  (pctItems s).bind decodeItems

/-- Characters `encodeURIComponent` leaves unescaped. -/
def uriUnreservedChar (c : Char) : Bool :=
  ('A' ≤ c && c ≤ 'Z') || ('a' ≤ c && c ≤ 'z') || ('0' ≤ c && c ≤ '9') ||
  c == '-' || c == '_' || c == '.' || c == '!' || c == '~' || c == '*' ||
  c == Char.ofNat 39 || c == '(' || c == ')'

/-- UTF-8 bytes of a code point. -/
def utf8Bytes (n : Nat) : List Nat :=
  if n < 0x80 then [n]
  else if n < 0x800 then [0xC0 + n / 64, 0x80 + n % 64]
  else if n < 0x10000 then [0xE0 + n / 4096, 0x80 + n / 64 % 64, 0x80 + n % 64]
  else [0xF0 + n / 262144, 0x80 + n / 4096 % 64, 0x80 + n / 64 % 64, 0x80 + n % 64]

/-- Upper-case hexadecimal digit. -/
def hexUpper (n : Nat) : Char :=
  if n < 10 then Char.ofNat (48 + n) else Char.ofNat (55 + n)

/-- `encodeURIComponent`. -/
def encodeURIComponent (s : String) : String :=
  String.mk (s.toList.foldr
    (fun c acc =>
      if uriUnreservedChar c then c :: acc
      else (utf8Bytes c.toNat).foldr
        (fun b acc2 => '%' :: hexUpper (b / 16) :: hexUpper (b % 16) :: acc2) acc)
    [])

/-! ## Cookie mapping (JS object with string keys) -/

/-- `out[k] = v` on a JS object represented as an association list with
unique keys (the only objects the worker builds): overwrite the entry
for `k` if present, otherwise append it. -/
def setKey : List (String × String) → String → String → List (String × String)
  | [], k, v => [(k, v)]
  | p :: rest, k, v => if p.1 = k then (k, v) :: rest else p :: setKey rest k v

/-- `obj[k]` on such an object. -/
def lookupKey : List (String × String) → String → Option String
  | [], _ => none
  | p :: rest, k => if p.1 = k then some p.2 else lookupKey rest k

/-! ## `parseCookie` (src/index.ts lines 26–34) -/

/-- Body of the `forEach` in `parseCookie`: `const i = kv.indexOf("=");
if (i > 0) out[decodeURIComponent(kv.slice(0, i))] =
decodeURIComponent(kv.slice(i + 1));`.  `none` models a `URIError`
thrown by `decodeURIComponent`. -/
def parseBody (out : List (String × String)) (kv : List Char) :
    Option (List (String × String)) :=
  let i := jsIndexOfEq kv
  if 0 < i then
    match decodeURIChars (kv.take i.toNat),
          decodeURIChars (kv.drop (i.toNat + 1)) with
    | some k, some v => some (setKey out (String.mk k) (String.mk v))
    | _, _ => none
  else some out

/-- `parseCookie(header)`.  `none` models the `URIError` escaping from
`decodeURIComponent` (the `forEach` body has no handler, so it
propagates out of `parseCookie`). -/
def parseCookie (header : Option String) : Option (List (String × String)) :=
  match header with
  | none => some []
  | some h =>
    if h = "" then some []
    else (jsSplitSemi h.toList).foldlM parseBody []

/-! ## JS numbers, `ToInt32`, `Number(string)` -/

/-- A JavaScript number.  Finite values are kept exactly as rationals
(doubles are rationals; none of the worker's arithmetic needs float
rounding, and overflow to `Infinity` is not exercised by its inputs). -/
inductive JSNum where
  | nan
  | posInf
  | negInf
  | num (q : ℚ)
deriving DecidableEq

/-- Truncation toward zero. -/
def ratTrunc (q : ℚ) : Int :=
  if q < 0 then -⌊-q⌋ else ⌊q⌋

/-- ECMAScript `ToInt32` (the `| 0` coercion): truncate toward zero,
reduce modulo `2^32` into `[-2^31, 2^31)`; `NaN`/infinities give 0. -/
def toInt32 : JSNum → Int
  | .num q =>
    let m := ratTrunc q % 4294967296
    if m < 2147483648 then m else m - 4294967296
  | _ => 0

def isDigit (c : Char) : Bool := '0' ≤ c && c ≤ '9'

def digitsVal (l : List Char) : Nat :=
  l.foldl (fun a c => 10 * a + (c.toNat - 48)) 0

/-- Exponent part of a decimal literal (after the `e`/`E`). -/
def parseExpInt : List Char → Option Int
  | [] => none
  | '+' :: rest =>
    if rest ≠ [] && rest.all isDigit then some (digitsVal rest : Int) else none
  | '-' :: rest =>
    if rest ≠ [] && rest.all isDigit then some (-(digitsVal rest : Int)) else none
  | l => if l.all isDigit then some (digitsVal l : Int) else none

/-- Value of `ip . fp e ex`. -/
def decValue (ip fp : List Char) (ex : Int) : ℚ :=
  ((digitsVal ip : ℚ) + (digitsVal fp : ℚ) / (10 : ℚ) ^ fp.length) * (10 : ℚ) ^ ex

/-- `StrUnsignedDecimalLiteral` (without `Infinity`): digits, optional
fraction, optional exponent; the whole list must be consumed. -/
def parseUnsignedDec (l : List Char) : Option ℚ :=
  let ip := l.takeWhile isDigit
  let r1 := l.dropWhile isDigit
  match r1 with
  | [] => if ip = [] then none else some (digitsVal ip : ℚ)
  | '.' :: r2 =>
    let fp := r2.takeWhile isDigit
    let r3 := r2.dropWhile isDigit
    if ip = [] && fp = [] then none
    else
      match r3 with
      | [] => some (decValue ip fp 0)
      | c :: r4 =>
        if c == 'e' || c == 'E' then (parseExpInt r4).map (decValue ip fp) else none
  | c :: r2 =>
    if (c == 'e' || c == 'E') && ip ≠ [] then (parseExpInt r2).map (decValue ip []) else none

/-- Unsigned decimal literal or `Infinity`. -/
def parseDecOrInf (l : List Char) : Option JSNum :=
  if l = "Infinity".toList then some .posInf
  else (parseUnsignedDec l).map .num

def negJS : JSNum → JSNum
  | .nan => .nan
  | .posInf => .negInf
  | .negInf => .posInf
  | .num q => .num (-q)

/-- Digit value in the given radix (radix ≤ 16). -/
def radixDigitVal (radix : Nat) (c : Char) : Option Nat :=
  match hexVal c with
  | some v => if v < radix then some v else none
  | none => none

/-- `0x`/`0o`/`0b` literal body. -/
def parseRadix (radix : Nat) (l : List Char) : JSNum :=
  if l = [] then .nan
  else
    match l.foldlM (fun acc c => (radixDigitVal radix c).map (fun v => acc * radix + v)) 0 with
    | some n => .num (n : ℚ)
    | none => .nan

def jsTrim (l : List Char) : List Char :=
  ((l.dropWhile jsWhitespace).reverse.dropWhile jsWhitespace).reverse

/-- ECMAScript `StringToNumber` (`Number(s)` on a string). -/
def jsStringToNumber (s : String) : JSNum :=
  match jsTrim s.toList with
  | [] => .num 0
  | '+' :: rest => (parseDecOrInf rest).getD .nan
  | '-' :: rest => ((parseDecOrInf rest).map negJS).getD .nan
  | '0' :: c :: rest =>
    if c == 'x' || c == 'X' then parseRadix 16 rest
    else if c == 'o' || c == 'O' then parseRadix 8 rest
    else if c == 'b' || c == 'B' then parseRadix 2 rest
    else (parseDecOrInf ('0' :: c :: rest)).getD .nan
  | l => (parseDecOrInf l).getD .nan

/-! ## `chooseStickyName` (src/index.ts lines 40–51) -/

/-- Result of `chooseStickyName`: instance name plus optional
`Set-Cookie` header value. -/
structure StickyChoice where
  name : String
  setCookie : Option String
deriving DecidableEq

/-- The fixed stickiness cookie key. -/
def cookieKey : String := "SZZD_CONTAINER"

/-- The cookie-missing branch of `chooseStickyName`:
`n = Math.max(1, count | 0)`, `shard = String(Math.floor(random * n))`,
and the rendered `Set-Cookie` value.  `rand` is the value drawn from
`Math.random()`. -/
def chooseFresh (count : JSNum) (rand : ℚ) : StickyChoice :=
  let n : Int := max 1 (toInt32 count)
  let shard : String := toString ⌊rand * (n : ℚ)⌋
  { name := "client-" ++ shard,
    setCookie := some (cookieKey ++ "=" ++ encodeURIComponent shard ++
      "; Path=/; Max-Age=86400; HttpOnly; SameSite=Lax") }

/-- `chooseStickyName(req, count)`, as a function of the request's
`Cookie` header.  `none` models the `URIError` propagating out of
`parseCookie`.  Note `!shard` in JS is true both for a missing key and
for the empty string. -/
def chooseStickyName (cookieHeader : Option String) (count : JSNum) (rand : ℚ) :
    Option StickyChoice :=
  (parseCookie cookieHeader).map (fun cookies =>
    match lookupKey cookies cookieKey with
    | none => chooseFresh count rand
    | some s => if s = "" then chooseFresh count rand
                else { name := "client-" ++ s, setCookie := none })

/-! ## Readiness prober (`ensureContainerReady`, src/index.ts lines 60–91) -/

/-- Outcome of one `stub.fetch(probe)` call: a response with a status
code, or a transport-level failure carrying `String(e)`. -/
inductive ProbeOut where
  | resp (status : Nat)
  | err (msg : String)
deriving DecidableEq

/-- One probe attempt as seen by the loop: how long the call took
(milliseconds of `Date.now()` advance) and its outcome. -/
structure ProbeStep where
  dur : Nat
  out : ProbeOut
deriving DecidableEq

/-- Observable result of `ensureContainerReady`: the returned value or
thrown error (as `String(e)`), plus the trace the claims talk about —
number of probes issued, the backoff delays slept, and
`Date.now() - startT` at the moment of return/throw. -/
structure ProberOutcome where
  result : Except String Unit
  probesIssued : Nat
  sleeps : List Nat
  elapsed : Nat

/-- Message of the error thrown on timeout, rendered as `String(e)`
(so with the `Error: ` prefix `new Error` gives it).  The template is
`Container not ready within ${timeoutMs}ms${lastErr ? ", last error: " +
String(lastErr) : ""}`; an empty rendering is falsy in JS. -/
def timeoutMsg (timeoutMs : Nat) (lastErr : Option String) : String :=
  "Error: Container not ready within " ++ toString timeoutMs ++ "ms" ++
    (match lastErr with
     | none => ""
     | some e => if e = "" then "" else ", last error: " ++ e)

/-- The `while (Date.now() - startT < timeoutMs)` loop.  `attempt` counts
probes already issued, `elapsed` is `Date.now() - startT` at the loop
check, `wait` the current backoff delay (always positive: it starts at
300 and is updated through `min (wait * 2) 5000`), `sleeps` the delays
slept so far.  Sleeping advances the clock by exactly the delay; a probe
call advances it by its `dur`. -/
def probeLoop (probes : Nat → ProbeStep) (timeoutMs : Nat) :
    (attempt elapsed wait : Nat) → 0 < wait → Option String → List Nat → ProberOutcome
  | attempt, elapsed, wait, hw, lastErr, sleeps =>
    if h : elapsed < timeoutMs then
      match (probes attempt).out with
      | .resp status =>
        if status < 500 then
          { result := .ok (), probesIssued := attempt + 1, sleeps := sleeps,
            elapsed := elapsed + (probes attempt).dur }
        else
          probeLoop probes timeoutMs (attempt + 1) (elapsed + (probes attempt).dur + wait)
            (min (wait * 2) 5000) (by omega) (some ("status " ++ toString status))
            (sleeps ++ [wait])
      | .err e =>
          probeLoop probes timeoutMs (attempt + 1) (elapsed + (probes attempt).dur + wait)
            (min (wait * 2) 5000) (by omega) (some e) (sleeps ++ [wait])
    else
      { result := .error (timeoutMsg timeoutMs lastErr), probesIssued := attempt,
        sleeps := sleeps, elapsed := elapsed }
  termination_by _ elapsed _ _ _ _ => timeoutMs - elapsed
  decreasing_by all_goals omega

/-! ## HTTP requests/responses and the worker environment -/

/-- The slice of an inbound `Request` the worker inspects: its `Cookie`
header (`none` when absent).  The request itself is forwarded opaquely. -/
structure JsRequest where
  cookieHeader : Option String
deriving DecidableEq

/-- A `Response`: status, body and header list.  Headers are kept as an
ordered name/value list; `headers.append` adds at the end. -/
structure HttpResponse where
  status : Nat
  body : String
  headers : List (String × String)
deriving DecidableEq

/-- A container instance as the worker observes it: the `start()` call
(`Except.error` carries `String(e)` of a rejection), how long `start`
takes, the outcome of the `n`-th `stub.fetch(probe)` call (indexed by
attempt, so a warming instance can answer differently over time), and
`stub.fetch(request)` for the real forward. -/
structure ContainerModel where
  start : Except String Unit
  startDur : Nat
  probes : Nat → ProbeStep
  forward : JsRequest → Except String HttpResponse

/-- `ensureContainerReady(stub, timeoutMs)`: `startT = Date.now()`, then
`await stub.start()` — a rejection there propagates uncaught, so no
probe is ever issued — then the probe loop with `wait` starting at
300ms.  (The source's default `timeoutMs` is `120_000`; the dispatcher
always passes `180_000` explicitly.) -/
def ensureContainerReady (stub : ContainerModel) (timeoutMs : Nat) : ProberOutcome :=
  match stub.start with
  | .error e =>
    { result := .error e, probesIssued := 0, sleeps := [], elapsed := stub.startDur }
  | .ok _ => probeLoop stub.probes timeoutMs 0 stub.startDur 300 (by omega) none []

/-! ## Worker entrypoint (`fetch`, src/index.ts lines 95–126) -/

/-- The worker environment: the optional `INSTANCE_COUNT` string var. -/
structure WorkerEnv where
  INSTANCE_COUNT : Option String
deriving DecidableEq

/-- What the dispatcher did with one request: the response it returned
(`Except.error` for an uncaught exception) and whether it attempted to
forward the original request to the container. -/
structure FetchOutcome where
  response : Except String HttpResponse
  forwarded : Bool

namespace Worker

/-- The default export's `fetch(request, env)` handler.  `rand` is the
value `Math.random()` would return; `containers` is the external
registry (`getContainer`), mapping an instance name to its behaviour. -/
def fetch (request : JsRequest) (env : WorkerEnv) (rand : ℚ)
    (containers : String → ContainerModel) : FetchOutcome :=
  let count := jsStringToNumber (env.INSTANCE_COUNT.getD "1")
  match chooseStickyName request.cookieHeader count rand with
  | none => { response := .error "URIError: URI malformed", forwarded := false }
  | some choice =>
    let stub := containers choice.name
    match (ensureContainerReady stub 180000).result with
    | .error e =>
      { response := .ok { status := 503,
                          body := "Service warming up: " ++ e,
                          headers := [("Cache-Control", "no-store"),
                                      ("X-Container-State", "starting")] },
        forwarded := false }
    | .ok _ =>
      match stub.forward request with
      | .error e => { response := .error e, forwarded := true }
      | .ok resp =>
        match choice.setCookie with
        | some c =>
          { response := .ok { status := resp.status,
                              body := resp.body,
                              headers := resp.headers ++ [("Set-Cookie", c)] },
            forwarded := true }
        | none => { response := .ok resp, forwarded := true }

end Worker

/-! ## Spec-side characterizations (used to state the claims) -/

/-- The segments of a header that `parseCookie` keeps: those whose first
`'='` sits at a position greater than 0. -/
def keptSegs (s : List Char) : List (List Char) :=
  (jsSplitSemi s).filter (fun kv => 0 < jsIndexOfEq kv)

/-- Percent-decode one kept segment into a key/value pair; `none` when
either side contains an invalid escape. -/
def decodeSeg (kv : List Char) : Option (String × String) :=
  let i := (jsIndexOfEq kv).toNat
  match decodeURIChars (kv.take i), decodeURIChars (kv.drop (i + 1)) with
  | some k, some v => some (String.mk k, String.mk v)
  | _, _ => none

/-- Decode a list of kept segments, failing if any decode fails. -/
def decodePairs : List (List Char) → Option (List (String × String))
  | [] => some []
  | kv :: rest =>
    match decodeSeg kv, decodePairs rest with
    | some p, some ps => some (p :: ps)
    | _, _ => none

/-- The well-formed, decoded key/value pairs of a header, in order. -/
def cookiePairs (s : List Char) : Option (List (String × String)) :=
  decodePairs (keptSegs s)

/-- The value of the last pair with key `k`, if any. -/
def lastVal : List (String × String) → String → Option String
  | [], _ => none
  | p :: rest, k =>
    match lastVal rest k with
    | some v => some v
    | none => if p.1 = k then some p.2 else none

/-- A probe outcome that does not count as ready: transport failure or
status ≥ 500. -/
def notReady : ProbeOut → Prop
  | .resp s => 500 ≤ s
  | .err _ => True

/-! ## Helper lemmas: probe loop -/

lemma probeLoop_timeout (probes : Nat → ProbeStep) (timeoutMs attempt elapsed wait : Nat)
    (hw : 0 < wait) (lastErr : Option String) (sleeps : List Nat)
    (h : ¬ elapsed < timeoutMs) :
    probeLoop probes timeoutMs attempt elapsed wait hw lastErr sleeps =
      { result := .error (timeoutMsg timeoutMs lastErr), probesIssued := attempt,
        sleeps := sleeps, elapsed := elapsed } := by
  rw [probeLoop.eq_def]
  simp [h]

lemma probeLoop_ready (probes : Nat → ProbeStep) (timeoutMs attempt elapsed wait : Nat)
    (hw : 0 < wait) (lastErr : Option String) (sleeps : List Nat) (s : Nat)
    (h : elapsed < timeoutMs) (hp : (probes attempt).out = .resp s) (h5 : s < 500) :
    probeLoop probes timeoutMs attempt elapsed wait hw lastErr sleeps =
      { result := .ok (), probesIssued := attempt + 1, sleeps := sleeps,
        elapsed := elapsed + (probes attempt).dur } := by
  rw [probeLoop.eq_def]
  simp [h, hp, h5]

lemma probeLoop_badResp (probes : Nat → ProbeStep) (timeoutMs attempt elapsed wait : Nat)
    (hw : 0 < wait) (lastErr : Option String) (sleeps : List Nat) (s : Nat)
    (hw2 : 0 < min (wait * 2) 5000)
    (h : elapsed < timeoutMs) (hp : (probes attempt).out = .resp s) (h5 : ¬ s < 500) :
    probeLoop probes timeoutMs attempt elapsed wait hw lastErr sleeps =
      probeLoop probes timeoutMs (attempt + 1) (elapsed + (probes attempt).dur + wait)
        (min (wait * 2) 5000) hw2 (some ("status " ++ toString s)) (sleeps ++ [wait]) := by
  rw [probeLoop.eq_def]
  simp [h, hp, h5]

lemma probeLoop_err (probes : Nat → ProbeStep) (timeoutMs attempt elapsed wait : Nat)
    (hw : 0 < wait) (lastErr : Option String) (sleeps : List Nat) (e : String)
    (hw2 : 0 < min (wait * 2) 5000)
    (h : elapsed < timeoutMs) (hp : (probes attempt).out = .err e) :
    probeLoop probes timeoutMs attempt elapsed wait hw lastErr sleeps =
      probeLoop probes timeoutMs (attempt + 1) (elapsed + (probes attempt).dur + wait)
        (min (wait * 2) 5000) hw2 (some e) (sleeps ++ [wait]) := by
  rw [probeLoop.eq_def]
  simp [h, hp]

/-- With only failing probes, the loop always times out: it throws, the
clock has passed the deadline, and every slept delay is at most 5000ms. -/
lemma probeLoop_allBad (probes : Nat → ProbeStep) (timeoutMs : Nat)
    (hbad : ∀ n, notReady (probes n).out) :
    ∀ (k attempt elapsed wait : Nat) (hw : 0 < wait) (lastErr : Option String)
      (sleeps : List Nat), timeoutMs - elapsed ≤ k → wait ≤ 5000 →
      (∀ x ∈ sleeps, x ≤ 5000) →
      (∃ le, (probeLoop probes timeoutMs attempt elapsed wait hw lastErr sleeps).result =
        .error (timeoutMsg timeoutMs le)) ∧
      timeoutMs ≤ (probeLoop probes timeoutMs attempt elapsed wait hw lastErr sleeps).elapsed ∧
      (∀ x ∈ (probeLoop probes timeoutMs attempt elapsed wait hw lastErr sleeps).sleeps,
        x ≤ 5000) := by
  intro k
  induction k with
  | zero =>
    intro attempt elapsed wait hw lastErr sleeps hk hw5 hsl
    have h : ¬ elapsed < timeoutMs := by omega
    rw [probeLoop_timeout probes timeoutMs attempt elapsed wait hw lastErr sleeps h]
    exact ⟨⟨lastErr, rfl⟩, by simp; omega, by simpa using hsl⟩
  | succ k ih =>
    intro attempt elapsed wait hw lastErr sleeps hk hw5 hsl
    by_cases h : elapsed < timeoutMs
    · have hsl2 : ∀ x ∈ sleeps ++ [wait], x ≤ 5000 := by
        intro x hx
        rcases List.mem_append.mp hx with hx1 | hx1
        · exact hsl x hx1
        · simp at hx1; omega
      cases hp : (probes attempt).out with
      | resp s =>
        have h500 : 500 ≤ s := by
          have hb := hbad attempt
          rw [hp] at hb
          exact hb
        rw [probeLoop_badResp probes timeoutMs attempt elapsed wait hw lastErr sleeps s
              (by omega) h hp (by omega)]
        exact ih (attempt + 1) (elapsed + (probes attempt).dur + wait) (min (wait * 2) 5000)
          (by omega) (some ("status " ++ toString s)) (sleeps ++ [wait]) (by omega) (by omega) hsl2
      | err e =>
        rw [probeLoop_err probes timeoutMs attempt elapsed wait hw lastErr sleeps e
              (by omega) h hp]
        exact ih (attempt + 1) (elapsed + (probes attempt).dur + wait) (min (wait * 2) 5000)
          (by omega) (some e) (sleeps ++ [wait]) (by omega) (by omega) hsl2
    · rw [probeLoop_timeout probes timeoutMs attempt elapsed wait hw lastErr sleeps h]
      exact ⟨⟨lastErr, rfl⟩, by simp; omega, by simpa using hsl⟩

lemma ensureReady_eq_loop (stub : ContainerModel) (t : Nat) (hs : stub.start = .ok ()) :
    ensureContainerReady stub t =
      probeLoop stub.probes t 0 stub.startDur 300 (by omega) none [] := by
  unfold ensureContainerReady
  rw [hs]

lemma ensureReady_error (stub : ContainerModel) (t : Nat) (e : String)
    (hs : stub.start = .error e) :
    ensureContainerReady stub t =
      { result := .error e, probesIssued := 0, sleeps := [], elapsed := stub.startDur } := by
  unfold ensureContainerReady
  rw [hs]

/-- Evaluation helper: the very first probe is already acceptable. -/
lemma ensureReady_ok_first (stub : ContainerModel) (t s : Nat) (hs : stub.start = .ok ())
    (h0 : stub.startDur < t) (hp : (stub.probes 0).out = .resp s) (h5 : s < 500) :
    ensureContainerReady stub t =
      { result := .ok (), probesIssued := 1, sleeps := [],
        elapsed := stub.startDur + (stub.probes 0).dur } := by
  rw [ensureReady_eq_loop stub t hs,
      probeLoop_ready stub.probes t 0 stub.startDur 300 (by omega) none [] s h0 hp h5]

/-! ## Helper lemmas: cookie mapping -/

lemma lookupKey_setKey (m : List (String × String)) (k v k2 : String) :
    lookupKey (setKey m k v) k2 = if k2 = k then some v else lookupKey m k2 := by
  induction m with
  | nil => simp [setKey, lookupKey, eq_comm]
  | cons p rest ih =>
    by_cases hpk : p.1 = k
    · by_cases h : k2 = k
      · subst h; simp [setKey, lookupKey, hpk]
      · have h2 : ¬ k = k2 := fun hh => h hh.symm
        have h3 : ¬ p.1 = k2 := by rw [hpk]; exact h2
        simp [setKey, lookupKey, hpk, h, h2, h3]
    · by_cases h : k2 = k
      · subst h; simp [setKey, lookupKey, hpk, ih]
      · simp [setKey, lookupKey, hpk, h, ih]

/-- Building a JS object by successive keyed assignments: a lookup
returns the value of the last assignment to that key. -/
lemma lookupKey_foldl_setKey (ps m : List (String × String)) (k : String) :
    lookupKey (ps.foldl (fun a p => setKey a p.1 p.2) m) k =
      match lastVal ps k with
      | some v => some v
      | none => lookupKey m k := by
  induction ps generalizing m with
  | nil => simp [lastVal]
  | cons p rest ih =>
    simp only [List.foldl_cons]
    rw [ih (setKey m p.1 p.2), lookupKey_setKey]
    cases hlv : lastVal rest k
    · by_cases h : p.1 = k
      · simp [lastVal, hlv, h, eq_comm]
      · have h2 : ¬ k = p.1 := fun hh => h hh.symm
        simp [lastVal, hlv, h, h2]
    · simp [lastVal, hlv]

lemma foldlM_parseBody (segs : List (List Char)) (m : List (String × String)) :
    segs.foldlM parseBody m =
      (decodePairs (segs.filter (fun kv => 0 < jsIndexOfEq kv))).map
        (fun ps => ps.foldl (fun a p => setKey a p.1 p.2) m) := by
  induction segs generalizing m with
  | nil => simp [decodePairs]
  | cons kv rest ih =>
    by_cases hi : 0 < jsIndexOfEq kv
    · simp only [List.foldlM_cons, List.filter_cons]
      rw [if_pos (by simpa using hi)]
      cases hk : decodeURIChars (kv.take (jsIndexOfEq kv).toNat) with
      | none =>
        simp [parseBody, hi, hk, decodePairs, decodeSeg]
      | some kdec =>
        cases hv : decodeURIChars (kv.drop ((jsIndexOfEq kv).toNat + 1)) with
        | none => simp [parseBody, hi, hk, hv, decodePairs, decodeSeg]
        | some vdec =>
          have hbody : parseBody m kv = some (setKey m (String.mk kdec) (String.mk vdec)) := by
            simp [parseBody, hi, hk, hv]
          rw [hbody]
          show List.foldlM parseBody (setKey m (String.mk kdec) (String.mk vdec)) rest = _
          rw [ih (setKey m (String.mk kdec) (String.mk vdec))]
          simp only [decodePairs, decodeSeg, hk, hv]
          cases decodePairs (rest.filter (fun kv => 0 < jsIndexOfEq kv)) <;> simp
    · simp only [List.foldlM_cons, List.filter_cons]
      rw [if_neg (by simpa using hi)]
      have hbody : parseBody m kv = some m := by simp [parseBody, hi]
      rw [hbody]
      show List.foldlM parseBody m rest = _
      exact ih m

lemma parseCookie_eq_pairs (s : String) :
    parseCookie (some s) =
      (cookiePairs s.toList).map (fun ps => ps.foldl (fun a p => setKey a p.1 p.2) []) := by
  by_cases h : s = ""
  · subst h; decide
  · simp only [parseCookie]
    rw [if_neg h]
    exact foldlM_parseBody (jsSplitSemi s.toList) []

/-! ## Helper lemmas: JS numbers -/

lemma ratTrunc_intCast (t : Int) : ratTrunc ((t : ℚ)) = t := by
  unfold ratTrunc
  by_cases h : (t : ℚ) < 0
  · rw [if_pos h, ← Int.cast_neg, Int.floor_intCast]; omega
  · rw [if_neg h, Int.floor_intCast]

lemma ratTrunc_nonpos (q : ℚ) (h : q ≤ 0) : ratTrunc q ≤ 0 := by
  unfold ratTrunc
  by_cases h2 : q < 0
  · rw [if_pos h2]
    have : (0 : Int) ≤ ⌊-q⌋ := Int.floor_nonneg.mpr (by linarith)
    omega
  · rw [if_neg h2]
    have : ⌊q⌋ ≤ ⌊(0 : ℚ)⌋ := Int.floor_le_floor h
    simpa using this

lemma toInt32_bounds (x : JSNum) :
    -2147483648 ≤ toInt32 x ∧ toInt32 x < 2147483648 := by
  cases x with
  | num q =>
    have h1 : 0 ≤ ratTrunc q % 4294967296 :=
      Int.emod_nonneg (ratTrunc q) (by norm_num)
    have h2 : ratTrunc q % 4294967296 < 4294967296 :=
      Int.emod_lt_of_pos (ratTrunc q) (by norm_num)
    simp only [toInt32]
    split <;> omega
  | nan => simp [toInt32]
  | posInf => simp [toInt32]
  | negInf => simp [toInt32]

/-- `ToInt32` is the identity on values it has already produced: the
`| 0` coercion factors through the signed 32-bit range. -/
lemma toInt32_cast (x : JSNum) : toInt32 (.num ((toInt32 x : Int) : ℚ)) = toInt32 x := by
  have hb := toInt32_bounds x
  simp only [toInt32, ratTrunc_intCast] at *
  cases x with
  | num q => split at hb <;> split <;> omega
  | nan => simp
  | posInf => simp
  | negInf => simp

/-- `chooseStickyName` consumes its `count` argument only through
`Math.max(1, count | 0)`. -/
lemma chooseSticky_count_congr (h : Option String) (a b : JSNum) (r : ℚ)
    (hc : max 1 (toInt32 a) = max 1 (toInt32 b)) :
    chooseStickyName h a r = chooseStickyName h b r := by
  unfold chooseStickyName chooseFresh
  rw [hc]

/-- Evaluation helper for the cookie-missing branch. -/
lemma chooseFresh_eval (count : JSNum) (rand : ℚ) (n k : Int)
    (h1 : max 1 (toInt32 count) = n) (h2 : ⌊rand * (n : ℚ)⌋ = k) :
    chooseFresh count rand =
      ⟨"client-" ++ toString k, some ("SZZD_CONTAINER=" ++ encodeURIComponent (toString k) ++
        "; Path=/; Max-Age=86400; HttpOnly; SameSite=Lax")⟩ := by
  unfold chooseFresh cookieKey
  dsimp only
  rw [h1, h2]
  rfl

/-- Claim C2 (counterexample): the claim says `parseCookie` never
raises for any header, including arbitrary percent-escape sequences.
On the header `"a=%"` the kept segment's value `"%"` makes
`decodeURIComponent` throw a `URIError` (modelled as `none`), which the
`forEach` body does not catch, so `parseCookie` raises. -/
theorem c2_counterexample : parseCookie (some "a=%") = none := by decide

/-- Claim C2 (amended): `parseCookie` of an absent or empty header is
the empty mapping, and on any header it equals the mapping built from
exactly the well-formed segments (first `'='` at position > 0, the
malformed ones being excluded), assigning later duplicates over earlier
ones; it raises (`none`) exactly when some kept segment's key or value
contains an invalid percent-escape — so it never raises on headers
whose kept segments decode, but can raise on malformed escapes. -/
theorem c2_amended :
    parseCookie none = some [] ∧ parseCookie (some "") = some [] ∧
    ∀ s : String, parseCookie (some s) =
      (cookiePairs s.toList).map (fun ps => ps.foldl (fun a p => setKey a p.1 p.2) []) :=
  ⟨rfl, by decide, parseCookie_eq_pairs⟩

/-- Claim C9: when a cookie header contains the same name more than
once, each later well-formed segment overwrites the earlier one: for
any successfully parsed header, looking a key up in `parseCookie`'s
result yields the value of the last well-formed occurrence of that key
(and `none` when the key never occurs). -/
theorem c9 (s : String) (m ps : List (String × String)) (k : String)
    (hm : parseCookie (some s) = some m) (hp : cookiePairs s.toList = some ps) :
    lookupKey m k = lastVal ps k := by
  rw [parseCookie_eq_pairs s, hp] at hm
  simp only [Option.map_some'] at hm
  cases hm
  rw [lookupKey_foldl_setKey]
  cases lastVal ps k <;> simp [lookupKey]

/-- Witness for C9 on the duplicate header `"a=1; a=2"`. -/
theorem c9_witness :
    parseCookie (some "a=1; a=2") = some [("a", "2")] ∧
    cookiePairs "a=1; a=2".toList = some [("a", "1"), ("a", "2")] ∧
    lookupKey [("a", "2")] "a" = lastVal [("a", "1"), ("a", "2")] "a" :=
  ⟨by decide, by decide, c9 "a=1; a=2" _ _ "a" (by decide) (by decide)⟩

/-- Claim C4: a request presenting a non-empty stickiness cookie value
`v` is routed to `client-<v>` with no `Set-Cookie` directive, for every
count and every random draw; the dispatcher then returns the backend
response with its headers untouched; and in general at most one
`Set-Cookie` directive is ever appended to a forwarded response. -/
theorem c4 (h : Option String) (m : List (String × String)) (v : String)
    (hp : parseCookie h = some m) (hl : lookupKey m "SZZD_CONTAINER" = some v)
    (hv : v ≠ "") :
    (∀ (count : JSNum) (rand : ℚ),
      chooseStickyName h count rand = some { name := "client-" ++ v, setCookie := none }) ∧
    (∀ (req : JsRequest) (env : WorkerEnv) (rand : ℚ) (containers : String → ContainerModel)
       (resp : HttpResponse),
      req.cookieHeader = h →
      (ensureContainerReady (containers ("client-" ++ v)) 180000).result = .ok () →
      (containers ("client-" ++ v)).forward req = .ok resp →
      Worker.fetch req env rand containers = { response := .ok resp, forwarded := true }) ∧
    (∀ (req : JsRequest) (env : WorkerEnv) (rand : ℚ) (containers : String → ContainerModel)
       (choice : StickyChoice) (b : HttpResponse),
      chooseStickyName req.cookieHeader (jsStringToNumber (env.INSTANCE_COUNT.getD "1")) rand
        = some choice →
      (ensureContainerReady (containers choice.name) 180000).result = .ok () →
      (containers choice.name).forward req = .ok b →
      Worker.fetch req env rand containers = { response := .ok b, forwarded := true } ∨
      ∃ c, Worker.fetch req env rand containers =
        { response := .ok { status := b.status, body := b.body,
                            headers := b.headers ++ [("Set-Cookie", c)] },
          forwarded := true }) := by
  have hchoice : ∀ (count : JSNum) (rand : ℚ),
      chooseStickyName h count rand = some ⟨"client-" ++ v, none⟩ := by
    intro count rand
    simp [chooseStickyName, hp, cookieKey, hl, hv]
  refine ⟨hchoice, ?_, ?_⟩
  · intro req env rand containers resp hreq hready hfwd
    simp only [Worker.fetch, hreq, hchoice]
    simp [hready, hfwd]
  · intro req env rand containers choice b hch hready hfwd
    cases hsc : choice.setCookie with
    | none =>
      left
      simp only [Worker.fetch, hch]
      simp [hready, hfwd, hsc]
    | some c =>
      right
      refine ⟨c, ?_⟩
      simp only [Worker.fetch, hch]
      simp [hready, hfwd, hsc]

/-- Claim C5: with no stickiness cookie and `shardCount = 1`, every
`Math.random()` value in `[0, 1)` selects `client-0` with a new cookie
that serializes exactly as
`SZZD_CONTAINER=0; Path=/; Max-Age=86400; HttpOnly; SameSite=Lax`. -/
theorem c5 (h : Option String) (m : List (String × String)) (r : ℚ)
    (hp : parseCookie h = some m) (hl : lookupKey m "SZZD_CONTAINER" = none)
    (hr0 : 0 ≤ r) (hr1 : r < 1) :
    chooseStickyName h (.num 1) r =
      some ⟨"client-0",
        some "SZZD_CONTAINER=0; Path=/; Max-Age=86400; HttpOnly; SameSite=Lax"⟩ := by
  have hfl : ⌊r * ((1 : Int) : ℚ)⌋ = 0 := by
    push_cast
    rw [mul_one]
    exact Int.floor_eq_zero_iff.mpr (Set.mem_Ico.mpr ⟨hr0, hr1⟩)
  have hfr : chooseFresh (.num 1) r =
      ⟨"client-0", some "SZZD_CONTAINER=0; Path=/; Max-Age=86400; HttpOnly; SameSite=Lax"⟩ := by
    rw [chooseFresh_eval (.num 1) r 1 0 (by norm_num [toInt32, ratTrunc]) hfl]
    decide
  simp [chooseStickyName, hp, cookieKey, hl, hfr]

/-- Witness for C5 at an absent header and `Math.random() = 0`. -/
theorem c5_witness :
    parseCookie none = some [] ∧ lookupKey [] "SZZD_CONTAINER" = none ∧
    chooseStickyName none (.num 1) 0 =
      some ⟨"client-0",
        some "SZZD_CONTAINER=0; Path=/; Max-Age=86400; HttpOnly; SameSite=Lax"⟩ :=
  ⟨rfl, rfl, c5 none [] 0 rfl rfl (by norm_num) (by norm_num)⟩

/-- Claim C8: when the shard assignment is new (`setCookie` present),
the dispatcher's response is the backend's response with exactly one
`Set-Cookie` header appended at the end: status, body and all other
headers are preserved unchanged. -/
theorem c8 (req : JsRequest) (env : WorkerEnv) (rand : ℚ)
    (containers : String → ContainerModel) (choice : StickyChoice) (c : String)
    (b : HttpResponse)
    (hch : chooseStickyName req.cookieHeader (jsStringToNumber (env.INSTANCE_COUNT.getD "1"))
      rand = some choice)
    (hsc : choice.setCookie = some c)
    (hready : (ensureContainerReady (containers choice.name) 180000).result = .ok ())
    (hfwd : (containers choice.name).forward req = .ok b) :
    Worker.fetch req env rand containers =
      { response := .ok { status := b.status, body := b.body,
                          headers := b.headers ++ [("Set-Cookie", c)] },
        forwarded := true } := by
  simp only [Worker.fetch, hch]
  simp [hready, hfwd, hsc]

/-- Witness for C4 with cookie `SZZD_CONTAINER=3`, count 5 and
`Math.random() = 1/2`. -/
theorem c4_witness :
    parseCookie (some "SZZD_CONTAINER=3") = some [("SZZD_CONTAINER", "3")] ∧
    lookupKey [("SZZD_CONTAINER", "3")] "SZZD_CONTAINER" = some "3" ∧
    chooseStickyName (some "SZZD_CONTAINER=3") (.num 5) (1/2) =
      some { name := "client-3", setCookie := none } :=
  ⟨by decide, by decide,
    (c4 (some "SZZD_CONTAINER=3") [("SZZD_CONTAINER", "3")] "3" (by decide) (by decide)
      (by decide)).1 (.num 5) (1/2)⟩

/-- Witness for C8: fresh client, instantly ready container, backend
answering 200 `"hello"` with one custom header. -/
theorem c8_witness :
    Worker.fetch ⟨none⟩ ⟨none⟩ 0
      (fun _ => { start := .ok (), startDur := 0, probes := fun _ => ⟨0, .resp 200⟩,
                  forward := fun _ => .ok ⟨200, "hello", [("X-A", "b")]⟩ }) =
      { response := .ok { status := 200,
                          body := "hello",
                          headers := [("X-A", "b"),
                            ("Set-Cookie",
                             "SZZD_CONTAINER=0; Path=/; Max-Age=86400; HttpOnly; SameSite=Lax")] },
        forwarded := true } := by
  have hch : chooseStickyName (⟨none⟩ : JsRequest).cookieHeader
      (jsStringToNumber ((⟨none⟩ : WorkerEnv).INSTANCE_COUNT.getD "1")) 0 =
      some ⟨"client-0",
        some "SZZD_CONTAINER=0; Path=/; Max-Age=86400; HttpOnly; SameSite=Lax"⟩ := by
    show chooseStickyName none (jsStringToNumber "1") 0 = _
    rw [show jsStringToNumber "1" = JSNum.num 1 from by decide]
    rw [show chooseStickyName none (JSNum.num 1) 0 = some (chooseFresh (JSNum.num 1) 0) from rfl]
    rw [chooseFresh_eval (JSNum.num 1) 0 1 0 (by norm_num [toInt32, ratTrunc]) (by norm_num)]
    decide
  have hready : (ensureContainerReady
      ((fun _ => ({ start := .ok (), startDur := 0, probes := fun _ => ⟨0, .resp 200⟩,
                    forward := fun _ => .ok ⟨200, "hello", [("X-A", "b")]⟩ } : ContainerModel))
        "client-0") 180000).result = .ok () := by
    rw [ensureReady_ok_first _ 180000 200 rfl (by norm_num) rfl (by norm_num)]
  exact c8 ⟨none⟩ ⟨none⟩ 0
    (fun _ => { start := .ok (), startDur := 0, probes := fun _ => ⟨0, .resp 200⟩,
                forward := fun _ => .ok ⟨200, "hello", [("X-A", "b")]⟩ })
    ⟨"client-0", some "SZZD_CONTAINER=0; Path=/; Max-Age=86400; HttpOnly; SameSite=Lax"⟩
    "SZZD_CONTAINER=0; Path=/; Max-Age=86400; HttpOnly; SameSite=Lax"
    ⟨200, "hello", [("X-A", "b")]⟩ hch rfl hready rfl

lemma probeLoop_bad (probes : Nat → ProbeStep) (timeoutMs attempt elapsed wait : Nat)
    (hw : 0 < wait) (lastErr : Option String) (sleeps : List Nat)
    (hw2 : 0 < min (wait * 2) 5000) (h : elapsed < timeoutMs)
    (hb : notReady (probes attempt).out) :
    ∃ le2, probeLoop probes timeoutMs attempt elapsed wait hw lastErr sleeps =
      probeLoop probes timeoutMs (attempt + 1) (elapsed + (probes attempt).dur + wait)
        (min (wait * 2) 5000) hw2 le2 (sleeps ++ [wait]) := by
  cases hp : (probes attempt).out with
  | resp s =>
    have h500 : 500 ≤ s := by
      have hb2 := hb
      rw [hp] at hb2
      exact hb2
    exact ⟨_, probeLoop_badResp probes timeoutMs attempt elapsed wait hw lastErr sleeps s
      hw2 h hp (by omega)⟩
  | err e =>
    exact ⟨_, probeLoop_err probes timeoutMs attempt elapsed wait hw lastErr sleeps e hw2 h hp⟩

/-- Evaluation helper: a fresh request against the default configuration
(`INSTANCE_COUNT` absent, `Math.random() = 0`) picks shard 0. -/
lemma chooseSticky_fresh_default :
    chooseStickyName none (jsStringToNumber "1") 0 =
      some ⟨"client-0",
        some "SZZD_CONTAINER=0; Path=/; Max-Age=86400; HttpOnly; SameSite=Lax"⟩ := by
  rw [show jsStringToNumber "1" = JSNum.num 1 from by decide]
  rw [show chooseStickyName none (JSNum.num 1) 0 = some (chooseFresh (JSNum.num 1) 0) from rfl]
  rw [chooseFresh_eval (JSNum.num 1) 0 1 0 (by norm_num [toInt32, ratTrunc]) (by norm_num)]
  decide

/-- Claim C1: against an instance whose probes never return a status
below 500 (and whose start signal succeeds), `ensureContainerReady`
throws the readiness-timeout error once the elapsed time has passed
`timeoutMs`, and no backoff delay it slept ever exceeds 5000ms; the
dispatcher then answers 503 with body `"Service warming up: " ++ <the
timeout diagnostic>`, headers `Cache-Control: no-store` and
`X-Container-State: starting`, and never attempts the forward. -/
theorem c1 :
    (∀ (stub : ContainerModel) (timeoutMs : Nat),
      stub.start = .ok () → (∀ n, notReady (stub.probes n).out) →
      (∃ le, (ensureContainerReady stub timeoutMs).result = .error (timeoutMsg timeoutMs le)) ∧
      timeoutMs ≤ (ensureContainerReady stub timeoutMs).elapsed ∧
      (∀ x ∈ (ensureContainerReady stub timeoutMs).sleeps, x ≤ 5000)) ∧
    (∀ (req : JsRequest) (env : WorkerEnv) (rand : ℚ) (containers : String → ContainerModel)
       (choice : StickyChoice),
      chooseStickyName req.cookieHeader (jsStringToNumber (env.INSTANCE_COUNT.getD "1")) rand
        = some choice →
      (∀ name, (containers name).start = .ok ()) →
      (∀ name n, notReady ((containers name).probes n).out) →
      (∃ le, (Worker.fetch req env rand containers).response =
        .ok { status := 503, body := "Service warming up: " ++ timeoutMsg 180000 le,
              headers := [("Cache-Control", "no-store"), ("X-Container-State", "starting")] }) ∧
      (Worker.fetch req env rand containers).forwarded = false) := by
  have hmain : ∀ (stub : ContainerModel) (timeoutMs : Nat),
      stub.start = .ok () → (∀ n, notReady (stub.probes n).out) →
      (∃ le, (ensureContainerReady stub timeoutMs).result = .error (timeoutMsg timeoutMs le)) ∧
      timeoutMs ≤ (ensureContainerReady stub timeoutMs).elapsed ∧
      (∀ x ∈ (ensureContainerReady stub timeoutMs).sleeps, x ≤ 5000) := by
    intro stub t hs hbad
    rw [ensureReady_eq_loop stub t hs]
    exact probeLoop_allBad stub.probes t hbad (t - stub.startDur) 0 stub.startDur 300
      (by omega) none [] (by omega) (by omega) (by simp)
  refine ⟨hmain, ?_⟩
  intro req env rand containers choice hch hstart hbad
  obtain ⟨⟨le, hmsg⟩, -, -⟩ :=
    hmain (containers choice.name) 180000 (hstart choice.name) (hbad choice.name)
  constructor
  · refine ⟨le, ?_⟩
    simp only [Worker.fetch, hch]
    simp [hmsg]
  · simp only [Worker.fetch, hch]
    simp [hmsg]

/-- Witness for C1 at a concrete always-500 instance and the default
environment. -/
theorem c1_witness :
    ((∃ le, (ensureContainerReady
        { start := .ok (), startDur := 0, probes := fun _ => ⟨0, .resp 500⟩,
          forward := fun _ => .ok ⟨200, "x", []⟩ } 1).result = .error (timeoutMsg 1 le)) ∧
      1 ≤ (ensureContainerReady
        { start := .ok (), startDur := 0, probes := fun _ => ⟨0, .resp 500⟩,
          forward := fun _ => .ok ⟨200, "x", []⟩ } 1).elapsed ∧
      (∀ x ∈ (ensureContainerReady
        { start := .ok (), startDur := 0, probes := fun _ => ⟨0, .resp 500⟩,
          forward := fun _ => .ok ⟨200, "x", []⟩ } 1).sleeps, x ≤ 5000)) ∧
    ((∃ le, (Worker.fetch ⟨none⟩ ⟨none⟩ 0
        (fun _ => { start := .ok (), startDur := 0, probes := fun _ => ⟨0, .resp 500⟩,
                    forward := fun _ => .ok ⟨200, "x", []⟩ })).response =
      .ok { status := 503, body := "Service warming up: " ++ timeoutMsg 180000 le,
            headers := [("Cache-Control", "no-store"), ("X-Container-State", "starting")] }) ∧
     (Worker.fetch ⟨none⟩ ⟨none⟩ 0
        (fun _ => { start := .ok (), startDur := 0, probes := fun _ => ⟨0, .resp 500⟩,
                    forward := fun _ => .ok ⟨200, "x", []⟩ })).forwarded = false) :=
  ⟨c1.1 _ 1 rfl (fun _ => Nat.le.refl),
   c1.2 ⟨none⟩ ⟨none⟩ 0 _
     ⟨"client-0", some "SZZD_CONTAINER=0; Path=/; Max-Age=86400; HttpOnly; SameSite=Lax"⟩
     chooseSticky_fresh_default (fun _ => rfl) (fun _ _ => Nat.le.refl)⟩

/-- Claim C3 (counterexample): the claim says a failing `stub.start()`
still enters probing and is not fatal.  On a container whose `start`
rejects and whose every probe would answer 200, `ensureContainerReady`
issues zero probes and fails with the start error: the bare
`await stub.start()` propagates the rejection. -/
theorem c3_counterexample :
    (ensureContainerReady
        { start := .error "Error: start failed", startDur := 0,
          probes := fun _ => ⟨0, .resp 200⟩,
          forward := fun _ => .ok ⟨200, "ok", []⟩ } 120000).probesIssued = 0 ∧
    (ensureContainerReady
        { start := .error "Error: start failed", startDur := 0,
          probes := fun _ => ⟨0, .resp 200⟩,
          forward := fun _ => .ok ⟨200, "ok", []⟩ } 120000).result =
      .error "Error: start failed" :=
  ⟨rfl, rfl⟩

/-- Claim C3 (amended): if `stub.start()` raises, `ensureContainerReady`
propagates that error without issuing a single probe or sleeping at
all — the start failure is fatal for the call — and the dispatcher then
returns the 503 warming-up response built from the start error, without
forwarding. -/
theorem c3_amended :
    (∀ (stub : ContainerModel) (t : Nat) (e : String),
      stub.start = .error e →
      ensureContainerReady stub t =
        { result := .error e, probesIssued := 0, sleeps := [], elapsed := stub.startDur }) ∧
    (∀ (req : JsRequest) (env : WorkerEnv) (rand : ℚ) (containers : String → ContainerModel)
       (choice : StickyChoice) (e : String),
      chooseStickyName req.cookieHeader (jsStringToNumber (env.INSTANCE_COUNT.getD "1")) rand
        = some choice →
      (containers choice.name).start = .error e →
      Worker.fetch req env rand containers =
        { response := .ok { status := 503,
                            body := "Service warming up: " ++ e,
                            headers := [("Cache-Control", "no-store"),
                                        ("X-Container-State", "starting")] },
          forwarded := false }) := by
  refine ⟨fun stub t e hs => ensureReady_error stub t e hs, ?_⟩
  intro req env rand containers choice e hch hs
  simp only [Worker.fetch, hch]
  rw [ensureReady_error _ _ _ hs]

/-- Witness for the amended C3 at a concrete failing-start container. -/
theorem c3_witness :
    ensureContainerReady
        { start := .error "Error: boom", startDur := 0, probes := fun _ => ⟨0, .resp 200⟩,
          forward := fun _ => .ok ⟨200, "ok", []⟩ } 5 =
      { result := .error "Error: boom", probesIssued := 0, sleeps := [], elapsed := 0 } ∧
    Worker.fetch ⟨none⟩ ⟨none⟩ 0
        (fun _ => { start := .error "Error: boom", startDur := 0,
                    probes := fun _ => ⟨0, .resp 200⟩,
                    forward := fun _ => .ok ⟨200, "ok", []⟩ }) =
      { response := .ok { status := 503,
                          body := "Service warming up: Error: boom",
                          headers := [("Cache-Control", "no-store"),
                                      ("X-Container-State", "starting")] },
        forwarded := false } :=
  ⟨c3_amended.1 _ 5 "Error: boom" rfl,
   c3_amended.2 ⟨none⟩ ⟨none⟩ 0 _
     ⟨"client-0", some "SZZD_CONTAINER=0; Path=/; Max-Age=86400; HttpOnly; SameSite=Lax"⟩
     "Error: boom" chooseSticky_fresh_default rfl⟩

/-- Claim C7: when the first two probes fail (transport error or status
≥ 500) and the third returns 200, `ensureContainerReady` succeeds having
issued exactly 3 probes and slept exactly the backoff delays 300ms then
600ms (so at least 900ms, with a backoff even after the first failed
attempt). -/
theorem c7 (stub : ContainerModel) (t : Nat)
    (hs : stub.start = .ok ())
    (h0 : notReady (stub.probes 0).out) (h1 : notReady (stub.probes 1).out)
    (h2 : (stub.probes 2).out = .resp 200)
    (ht : stub.startDur + (stub.probes 0).dur + (stub.probes 1).dur + 900 < t) :
    ensureContainerReady stub t =
      { result := .ok (), probesIssued := 3, sleeps := [300, 600],
        elapsed := stub.startDur + (stub.probes 0).dur + 300 + (stub.probes 1).dur + 600 +
                   (stub.probes 2).dur } := by
  rw [ensureReady_eq_loop stub t hs]
  obtain ⟨le1, h1e⟩ := probeLoop_bad stub.probes t 0 stub.startDur 300 (by omega) none []
    (by omega) (by omega) h0
  rw [h1e]
  show probeLoop stub.probes t 1 (stub.startDur + (stub.probes 0).dur + 300) 600
    (by omega) le1 [300] = _
  obtain ⟨le2, h2e⟩ := probeLoop_bad stub.probes t 1 (stub.startDur + (stub.probes 0).dur + 300)
    600 (by omega) le1 [300] (by omega) (by omega) h1
  rw [h2e]
  show probeLoop stub.probes t 2
    (stub.startDur + (stub.probes 0).dur + 300 + (stub.probes 1).dur + 600) 1200
    (by omega) le2 [300, 600] = _
  rw [probeLoop_ready stub.probes t 2
    (stub.startDur + (stub.probes 0).dur + 300 + (stub.probes 1).dur + 600) 1200
    (by omega) le2 [300, 600] 200 (by omega) h2 (by omega)]

/-- Witness for C7: transport error, then 500, then 200, with
instantaneous probes. -/
theorem c7_witness :
    ensureContainerReady
        { start := .ok (), startDur := 0,
          probes := fun n =>
            match n with
            | 0 => ⟨0, .err "Error: connect"⟩
            | 1 => ⟨0, .resp 500⟩
            | _ => ⟨0, .resp 200⟩,
          forward := fun _ => .ok ⟨200, "x", []⟩ } 120000 =
      { result := .ok (), probesIssued := 3, sleeps := [300, 600], elapsed := 900 } :=
  c7 _ 120000 rfl trivial Nat.le.refl rfl (by norm_num)

lemma fetch_count_congr (req : JsRequest) (rand : ℚ) (containers : String → ContainerModel)
    (e1 e2 : WorkerEnv)
    (hc : max 1 (toInt32 (jsStringToNumber (e1.INSTANCE_COUNT.getD "1"))) =
          max 1 (toInt32 (jsStringToNumber (e2.INSTANCE_COUNT.getD "1")))) :
    Worker.fetch req e1 rand containers = Worker.fetch req e2 rand containers := by
  simp only [Worker.fetch]
  rw [chooseSticky_count_congr req.cookieHeader _ _ rand hc]

/-- Claim C6 (counterexample): the claim says every `shardCount ≤ 0`
behaves like count 1.  The count `-4294967294 = -(2^32) + 2` is ≤ 0 but
`| 0` wraps it to `+2`, so with `Math.random() = 3/5` the selector picks
`client-1`, not `client-0`. -/
theorem c6_counterexample :
    ((-4294967294 : ℚ) ≤ 0) ∧
    chooseStickyName none (.num (-4294967294)) (3/5) ≠
      chooseStickyName none (.num 1) (3/5) := by
  refine ⟨by norm_num, ?_⟩
  rw [show chooseStickyName none (JSNum.num (-4294967294)) (3/5) =
        some (chooseFresh (JSNum.num (-4294967294)) (3/5)) from rfl,
      show chooseStickyName none (JSNum.num 1) (3/5) =
        some (chooseFresh (JSNum.num 1) (3/5)) from rfl,
      chooseFresh_eval (JSNum.num (-4294967294)) (3/5) 2 1
        (by norm_num [toInt32, ratTrunc]) (by push_cast; norm_num),
      chooseFresh_eval (JSNum.num 1) (3/5) 1 0
        (by norm_num [toInt32, ratTrunc]) (by push_cast; norm_num)]
  decide

/-- Claim C6 (amended): a `shardCount ≤ 0` whose truncation stays within
the signed 32-bit range behaves exactly like `shardCount = 1` (counts
further out first wrap modulo `2^32` and may land on a positive shard
count, per C10); `NaN` (every non-numeric configuration string) and
`-Infinity` also behave like count 1, and a non-numeric
`INSTANCE_COUNT` makes the whole dispatcher behave as when the variable
is absent. -/
theorem c6_amended :
    (∀ (h : Option String) (r : ℚ) (q : ℚ),
      q ≤ 0 → -2147483648 ≤ ratTrunc q →
      chooseStickyName h (.num q) r = chooseStickyName h (.num 1) r) ∧
    (∀ (h : Option String) (r : ℚ),
      chooseStickyName h .nan r = chooseStickyName h (.num 1) r ∧
      chooseStickyName h .negInf r = chooseStickyName h (.num 1) r) ∧
    (∀ (req : JsRequest) (rand : ℚ) (containers : String → ContainerModel) (s : String),
      jsStringToNumber s = .nan →
      Worker.fetch req ⟨some s⟩ rand containers = Worker.fetch req ⟨none⟩ rand containers) := by
  have hone : toInt32 (.num 1) = 1 := by norm_num [toInt32, ratTrunc]
  have h1 : ∀ q : ℚ, q ≤ 0 → -2147483648 ≤ ratTrunc q →
      max 1 (toInt32 (.num q)) = max 1 (toInt32 (.num 1)) := by
    intro q hq hb
    have hz : ratTrunc q ≤ 0 := ratTrunc_nonpos q hq
    rw [hone]
    simp only [toInt32]
    have e1 : 0 ≤ ratTrunc q % 4294967296 := Int.emod_nonneg _ (by norm_num)
    have e2 : ratTrunc q % 4294967296 < 4294967296 := Int.emod_lt_of_pos _ (by norm_num)
    split <;> omega
  refine ⟨fun h r q hq hb => chooseSticky_count_congr h _ _ r (h1 q hq hb), ?_, ?_⟩
  · intro h r
    constructor
    · refine chooseSticky_count_congr h _ _ r ?_
      rw [hone]
      decide
    · refine chooseSticky_count_congr h _ _ r ?_
      rw [hone]
      decide
  · intro req rand containers s hnan
    refine fetch_count_congr req rand containers ⟨some s⟩ ⟨none⟩ ?_
    show max 1 (toInt32 (jsStringToNumber s)) = max 1 (toInt32 (jsStringToNumber "1"))
    rw [hnan, show jsStringToNumber "1" = JSNum.num 1 from by decide, hone]
    decide

/-- Witness for the amended C6: count `-5` behaves as count 1, and
`INSTANCE_COUNT = "abc"` behaves as an absent variable. -/
theorem c6_witness :
    ((-5 : ℚ) ≤ 0) ∧ (-2147483648 ≤ ratTrunc (-5)) ∧
    chooseStickyName none (.num (-5)) (1/2) = chooseStickyName none (.num 1) (1/2) ∧
    jsStringToNumber "abc" = .nan ∧
    Worker.fetch ⟨none⟩ ⟨some "abc"⟩ 0
        (fun _ => { start := .ok (), startDur := 0, probes := fun _ => ⟨0, .resp 200⟩,
                    forward := fun _ => .ok ⟨200, "x", []⟩ }) =
      Worker.fetch ⟨none⟩ ⟨none⟩ 0
        (fun _ => { start := .ok (), startDur := 0, probes := fun _ => ⟨0, .resp 200⟩,
                    forward := fun _ => .ok ⟨200, "x", []⟩ }) :=
  ⟨by norm_num, by norm_num [ratTrunc],
   c6_amended.1 none (1/2) (-5) (by norm_num) (by norm_num [ratTrunc]),
   by decide,
   c6_amended.2.2 ⟨none⟩ 0 _ "abc" (by decide)⟩

/-- Claim C10: `chooseStickyName` coerces the count through 32-bit
signed truncation before clamping: the selection only depends on the
count through `ToInt32` (so a fractional count acts as its truncation
toward zero, and any count acts as its wrapped 32-bit value), and in
particular count `2^31` wraps to `-2^31` and behaves as a single
shard. -/
theorem c10 :
    (∀ (h : Option String) (r : ℚ) (q : ℚ),
      chooseStickyName h (.num q) r =
        chooseStickyName h (.num ((toInt32 (.num q) : Int) : ℚ)) r) ∧
    (∀ (h : Option String) (r : ℚ) (q : ℚ),
      chooseStickyName h (.num q) r = chooseStickyName h (.num ((ratTrunc q : Int) : ℚ)) r) ∧
    (∀ (h : Option String) (r : ℚ),
      chooseStickyName h (.num 2147483648) r = chooseStickyName h (.num 1) r) := by
  refine ⟨?_, ?_, ?_⟩
  · intro h r q
    exact chooseSticky_count_congr h _ _ r (by rw [toInt32_cast])
  · intro h r q
    refine chooseSticky_count_congr h _ _ r ?_
    simp only [toInt32, ratTrunc_intCast]
  · intro h r
    refine chooseSticky_count_congr h _ _ r ?_
    rw [show toInt32 (.num 2147483648) = -2147483648 from by norm_num [toInt32, ratTrunc],
        show toInt32 (.num 1) = 1 from by norm_num [toInt32, ratTrunc]]
    decide
